import Mathlib

/-!
Shallow embedding of the budget/expense tracking ERP server
(models Budget.js and Expense.js, controllers expenseController.js and
budgetController.js, route validation and the authorize middleware).

Monetary values are rationals, dates are integers (timestamps), entity
references are natural-number identifiers.  JavaScript Math.round is
modelled as floor (x + 1/2), which matches it on all numbers.
-/

namespace ERP

/-- The status enumeration of the Expense schema. -/
inductive ExpenseStatus
  | pending
  | approved
  | rejected
  | reimbursed
deriving DecidableEq, Repr

/-- The status enumeration of the Budget schema. -/
inductive BudgetStatus
  | draft
  | pending
  | approved
  | rejected
  | active
  | expired
deriving DecidableEq, Repr

/-- The role enumeration of the User schema. -/
inductive Role
  | admin
  | manager
  | user
deriving DecidableEq, Repr

/-- One entry of the append-only auditLog array on an Expense. -/
structure AuditEntry where
  action : String
  performedBy : Nat
  timestamp : Int
deriving DecidableEq, Repr

/-- The fields of the Expense document that the verified logic reads or
writes.  convertedAmount is optional because the schema default only fills
it on document construction; code reads it as convertedAmount or amount. -/
structure Expense where
  id : Nat
  amount : ℚ
  exchangeRate : ℚ
  convertedAmount : Option ℚ
  date : Int
  budget : Option Nat
  status : ExpenseStatus
  submittedBy : Nat
  approvedBy : Option Nat
  approvalDate : Option Int
  rejectionReason : Option String
  auditLog : List AuditEntry
deriving DecidableEq, Repr

/-- The fields of the Budget document that the verified logic reads. -/
structure Budget where
  id : Nat
  amount : ℚ
  startDate : Int
  endDate : Int
  owner : Nat
  status : BudgetStatus
  alertThreshold : ℚ
deriving DecidableEq, Repr

/-- The fields of the User document that the verified logic reads. -/
structure User where
  id : Nat
  role : Role
deriving DecidableEq, Repr

/-- JavaScript Math.round: round half toward positive infinity. -/
def jsRound (q : ℚ) : Int :=
  Int.floor (q + 1 / 2)

/-- JavaScript expression e.convertedAmount or e.amount: falls back to the
raw amount when convertedAmount is undefined (or 0, which is falsy). -/
def jsConvertedOrAmount (c : Option ℚ) (a : ℚ) : ℚ :=
  match c with
  | none => a
  | some v => if v = 0 then a else v

/-- JavaScript truthiness of an optional string: undefined and the empty
string are falsy. -/
def truthyStr : Option String → Bool
  | none => false
  | some s => !(s == "")

/-- Status filter of budgetSchema.methods.calculateSpentAmount
(Budget.js lines 249-257): status in [approved, reimbursed]. -/
def countsTowardSpent (s : ExpenseStatus) : Bool :=
  match s with
  | .approved => true
  | .reimbursed => true
  | _ => false

/-- budgetSchema.methods.calculateSpentAmount (Budget.js lines 249-257):
finds the expenses referencing this budget with status in
[approved, reimbursed] and sums convertedAmount or amount over them. -/
def calculateSpentAmount (b : Budget) (allExpenses : List Expense) : ℚ :=
  ((allExpenses.filter
      (fun e => e.budget == some b.id && countsTowardSpent e.status)).map
    (fun e => jsConvertedOrAmount e.convertedAmount e.amount)).sum

/-- The expense sum inside checkBudgetAlert (expenseController.js lines
455-460): finds expenses with this budget and status approved only, and
sums the raw amount field. -/
def checkSpent (budgetId : Nat) (allExpenses : List Expense) : ℚ :=
  ((allExpenses.filter
      (fun e => e.budget == some budgetId && e.status == ExpenseStatus.approved)).map
    (fun e => e.amount)).sum

/-- The percentage inside checkBudgetAlert (expenseController.js line 461):
budget.amount > 0 ? Math.round(spentAmount / budget.amount * 100) : 0. -/
def checkPercentage (b : Budget) (allExpenses : List Expense) : Int :=
  if 0 < b.amount then jsRound (checkSpent b.id allExpenses / b.amount * 100) else 0

/-- The usagePercentage virtual of the Budget schema (Budget.js lines
176-179), as a function of the amount and the spent figure it divides:
0 when amount is 0, else Math.round(spent / amount * 100). -/
def usagePercentage (amount spent : ℚ) : Int :=
  if amount = 0 then 0 else jsRound (spent / amount * 100)

/-- The notification decision of the alert path: Fire carries the owner,
the spent amount and the percentage handed to sendBudgetAlert. -/
inductive NotifyDecision
  | fire (owner : Nat) (spent : ℚ) (percentage : Int)
  | suppress
deriving DecidableEq, Repr

/-- checkBudgetAlert (expenseController.js lines 449-470): recomputes the
spent amount and percentage and calls sendBudgetAlert exactly when
percentage >= budget.alertThreshold. -/
def checkBudgetAlert (b : Budget) (allExpenses : List Expense) : NotifyDecision :=
  let spent := checkSpent b.id allExpenses
  let pct := checkPercentage b allExpenses
  if b.alertThreshold ≤ (pct : ℚ) then .fire b.owner spent pct else .suppress

/-- The error outcomes of the reviewExpense controller. -/
inductive ReviewError
  | invalidStatus
  | missingReason
  | notPending
deriving DecidableEq, Repr

/-- expenseSchema.pre(save) (Expense.js lines 206-230): sets approvalDate
when the status was modified to approved and approvalDate is unset, and
recomputes convertedAmount when amount or exchangeRate was modified. -/
def expensePreSave (now : Int) (statusModified amountOrRateModified : Bool) (e : Expense) : Expense :=
  let e1 :=
    if statusModified && e.status == ExpenseStatus.approved && e.approvalDate == none
    then { e with approvalDate := some now }
    else e
  if amountOrRateModified
  then { e1 with convertedAmount := some (e1.amount * e1.exchangeRate) }
  else e1

/-- The request body of the review route: a status string and an optional
rejection reason. -/
structure ReviewBody where
  status : String
  rejectionReason : Option String
deriving DecidableEq, Repr

/-- reviewExpense (expenseController.js lines 295-362), given the expense
the id lookup found.  In source order: rejects a status outside
[approved, rejected]; rejects a falsy rejectionReason when the status is
rejected; rejects a non-pending expense; otherwise assigns status,
approvedBy and approvalDate, assigns rejectionReason when truthy, and
saves (running the pre-save hook).  Failure returns an error before any
field of the expense is assigned, so the stored expense is unchanged. -/
def reviewExpense (body : ReviewBody) (e : Expense) (actorId : Nat) (now : Int) :
    Except ReviewError Expense :=
  if body.status ≠ "approved" ∧ body.status ≠ "rejected" then
    .error .invalidStatus
  else if body.status = "rejected" ∧ truthyStr body.rejectionReason = false then
    .error .missingReason
  else if e.status ≠ ExpenseStatus.pending then
    .error .notPending
  else
    let newStatus : ExpenseStatus :=
      if body.status = "approved" then .approved else .rejected
    let e1 := { e with
      status := newStatus
      approvedBy := some actorId
      approvalDate := some now }
    let e2 :=
      if truthyStr body.rejectionReason
      then { e1 with rejectionReason := body.rejectionReason }
      else e1
    .ok (expensePreSave now true false e2)

/-- The error outcomes of the review route including the authorize
middleware. -/
inductive RouteError
  | forbidden
  | fromController (err : ReviewError)
deriving DecidableEq, Repr

/-- The review route PUT /api/expenses/:id/review (routes file lines
145-152): authorize(manager, admin) runs before the controller and rejects
every other role. -/
def reviewRoute (actor : User) (body : ReviewBody) (e : Expense) (now : Int) :
    Except RouteError Expense :=
  if actor.role ≠ Role.manager ∧ actor.role ≠ Role.admin then
    .error .forbidden
  else
    match reviewExpense body e actor.id now with
    | .ok e2 => .ok e2
    | .error err => .error (.fromController err)

/-- The error outcomes of the budget checks in createExpense. -/
inductive CreateError
  | budgetInactive
  | outOfPeriod
deriving DecidableEq, Repr

/-- The budget gate of createExpense (expenseController.js lines 131-157),
given the budget the id lookup found: rejects a budget whose status is
neither active nor approved, then rejects an expense date outside
[startDate, endDate], otherwise lets creation proceed. -/
def createExpenseCheck (b : Budget) (expenseDate : Int) : Except CreateError Unit :=
  if b.status ≠ BudgetStatus.active ∧ b.status ≠ BudgetStatus.approved then
    .error .budgetInactive
  else if expenseDate < b.startDate ∨ b.endDate < expenseDate then
    .error .outOfPeriod
  else
    .ok ()

/-- The error outcomes of deleteBudget. -/
inductive DeleteError
  | notAuthorized
  | hasLinkedExpenses
deriving DecidableEq, Repr

/-- Expense.countDocuments with filter budget = budgetId
(budgetController.js line 241): counts linked expenses in any status. -/
def linkedExpenseCount (budgetId : Nat) (allExpenses : List Expense) : Nat :=
  (allExpenses.filter (fun e => e.budget == some budgetId)).length

/-- deleteBudget (budgetController.js lines 221-258), given the budget the
id lookup found: rejects a non-admin actor who does not own the budget,
then rejects when any expense references the budget, otherwise deletes. -/
def deleteBudget (actor : User) (b : Budget) (allExpenses : List Expense) :
    Except DeleteError Unit :=
  if actor.role ≠ Role.admin ∧ b.owner ≠ actor.id then
    .error .notAuthorized
  else if 0 < linkedExpenseCount b.id allExpenses then
    .error .hasLinkedExpenses
  else
    .ok ()

/-- The budget store after a deleteBudget request: the budget document is
removed only when the controller reaches budget.deleteOne(); every error
return leaves the store unchanged. -/
def deleteBudgetFromStore (actor : User) (b : Budget) (allExpenses : List Expense)
    (store : List Budget) : List Budget :=
  match deleteBudget actor b allExpenses with
  | .ok _ => store.filter (fun x => x.id ≠ b.id)
  | .error _ => store

/-- The request body of the generic update route, restricted to the fields
the verified claims exercise.  updateExpenseValidation (routes file lines
102-105) accepts any status in [pending, approved, rejected, reimbursed]. -/
structure UpdateBody where
  status : Option ExpenseStatus
  amount : Option ℚ
deriving DecidableEq, Repr

/-- The error outcomes of the updateExpense controller. -/
inductive UpdateError
  | notAuthorized
  | notPending
deriving DecidableEq, Repr

/-- Expense.findByIdAndUpdate applied to the body fields: assigns each
present field.  findByIdAndUpdate does not run the pre-save hook. -/
def applyUpdate (body : UpdateBody) (e : Expense) : Expense :=
  let e1 := match body.status with
    | some s => { e with status := s }
    | none => e
  match body.amount with
  | some a => { e1 with amount := a }
  | none => e1

/-- The outcome of a successful updateExpense: the stored expense and
whether the controller went on to run checkBudgetAlert (it does exactly
when the updated status is approved and a budget is referenced,
expenseController.js lines 237-239). -/
structure UpdateResult where
  expense : Expense
  alertChecked : Bool
deriving DecidableEq, Repr

/-- updateExpense (expenseController.js lines 184-249), given the expense
the id lookup found: a user-role actor must own the expense and the
expense must still be pending; then the body (which may carry a status)
is applied with findByIdAndUpdate.  No role above user is required to set
the status field on this route. -/
def updateExpense (actor : User) (e : Expense) (body : UpdateBody) :
    Except UpdateError UpdateResult :=
  if actor.role = Role.user ∧ e.submittedBy ≠ actor.id then
    .error .notAuthorized
  else if actor.role = Role.user ∧ e.status ≠ ExpenseStatus.pending then
    .error .notPending
  else
    let e2 := applyUpdate body e
    .ok { expense := e2
          alertChecked := e2.status == ExpenseStatus.approved && e2.budget.isSome }

/-! Concrete fixtures used by the scenario conjuncts, witnesses and
counterexamples below.  They instantiate the scenario of the spec: a
budget of 1000 with alert threshold 80, and expenses against it. -/

/-- An active budget: amount 1000, period [0, 100], owner 7, threshold 80. -/
def scenarioBudget : Budget :=
  { id := 1, amount := 1000, startDate := 0, endDate := 100, owner := 7,
    status := .active, alertThreshold := 80 }

/-- An approved expense of 850 against the scenario budget. -/
def approvedExpense850 : Expense :=
  { id := 10, amount := 850, exchangeRate := 1, convertedAmount := some 850,
    date := 5, budget := some 1, status := .approved, submittedBy := 3,
    approvedBy := some 4, approvalDate := some 6, rejectionReason := none,
    auditLog := [] }

/-- An approved expense of 750 against the scenario budget. -/
def approvedExpense750 : Expense :=
  { approvedExpense850 with
    id := 13
    amount := 750
    convertedAmount := some 750 }

/-- A reimbursed expense of 100 against the scenario budget. -/
def reimbursedExpense100 : Expense :=
  { approvedExpense850 with
    id := 11
    amount := 100
    convertedAmount := some 100
    status := .reimbursed }

/-- An approved expense booked in a foreign currency: raw amount 100 at
exchange rate 2, so its converted amount is 200. -/
def foreignExpense100 : Expense :=
  { approvedExpense850 with
    id := 12
    amount := 100
    exchangeRate := 2
    convertedAmount := some 200 }

/-- A pending expense of 850 against the scenario budget, not yet reviewed. -/
def pendingExpense850 : Expense :=
  { approvedExpense850 with
    status := .pending
    approvedBy := none
    approvalDate := none }

/-- The stored expense after actor 9 approves pendingExpense850 at time 42. -/
def reviewedApproved850 : Expense :=
  { pendingExpense850 with
    status := .approved
    approvedBy := some 9
    approvalDate := some 42 }

/-! Claim theorems. -/

/-- Claim C1 (code bug): the spent amount recomputed inside checkBudgetAlert
diverges from the claim and from the models own calculateSpentAmount.  A
reimbursed expense of converted amount 100 contributes 100 to
calculateSpentAmount but 0 to the alert paths sum, and an approved foreign
expense of raw amount 100 with converted amount 200 contributes 200 to
calculateSpentAmount but only its raw 100 to the alert paths sum. -/
theorem c1_alert_spent_diverges_from_model :
    checkSpent scenarioBudget.id [reimbursedExpense100] = 0 ∧
    calculateSpentAmount scenarioBudget [reimbursedExpense100] = 100 ∧
    checkSpent scenarioBudget.id [foreignExpense100] = 100 ∧
    calculateSpentAmount scenarioBudget [foreignExpense100] = 200 := by
  refine ⟨?_, ?_, ?_, ?_⟩
  · simp [checkSpent, reimbursedExpense100, approvedExpense850, scenarioBudget]
  · simp [calculateSpentAmount, reimbursedExpense100, approvedExpense850, scenarioBudget,
      countsTowardSpent, jsConvertedOrAmount]
  · simp [checkSpent, foreignExpense100, approvedExpense850, scenarioBudget]
  · simp [calculateSpentAmount, foreignExpense100, approvedExpense850, scenarioBudget,
      countsTowardSpent, jsConvertedOrAmount]

/-- Claim C2 (confirmed): the usagePercentage virtual returns 0 when the
budget amount is 0, regardless of the spent figure, and otherwise rounds
spent / amount x 100 to the nearest integer; the percentage recomputed in
checkBudgetAlert agrees with the virtual on every schema-valid budget
(amount is never negative). -/
theorem c2_usage_percentage_division_guard (amount spent : ℚ) :
    (amount = 0 → usagePercentage amount spent = 0) ∧
    (amount ≠ 0 → usagePercentage amount spent = jsRound (spent / amount * 100)) ∧
    (∀ (b : Budget) (E : List Expense), 0 ≤ b.amount →
      checkPercentage b E = usagePercentage b.amount (checkSpent b.id E)) := by
  refine ⟨fun h => by simp [usagePercentage, h], fun h => by simp [usagePercentage, h], ?_⟩
  intro b E h
  rcases lt_or_eq_of_le h with h1 | h1
  · simp [checkPercentage, usagePercentage, h1, h1.ne']
  · simp [checkPercentage, usagePercentage, ← h1]

/-- Witness for claim C2 at concrete inputs: amount 0 guards the division,
and amount 1000 with spent 850 rounds to 85. -/
theorem c2_usage_percentage_division_guard_witness :
    usagePercentage 0 850 = 0 ∧
    usagePercentage 1000 850 = 85 ∧
    checkPercentage scenarioBudget [] =
      usagePercentage scenarioBudget.amount (checkSpent scenarioBudget.id []) := by
  refine ⟨(c2_usage_percentage_division_guard 0 850).1 rfl, ?_,
    (c2_usage_percentage_division_guard scenarioBudget.amount 0).2.2 scenarioBudget []
      (by norm_num [scenarioBudget])⟩
  have h := (c2_usage_percentage_division_guard 1000 850).2.1 (by norm_num)
  rw [h]
  norm_num [jsRound]

/-- Claim C3 (confirmed): checkBudgetAlert fires a budget alert to the
owner exactly when the recomputed percentage reaches the alert threshold,
and suppresses it otherwise; concretely, on the scenario budget of 1000
with threshold 80, one approved expense of 850 gives percentage 85 and
Fire while 750 gives 75 and Suppress. -/
theorem c3_alert_fire_iff_threshold (b : Budget) (E : List Expense) :
    (b.alertThreshold ≤ ((checkPercentage b E : Int) : ℚ) →
      checkBudgetAlert b E = .fire b.owner (checkSpent b.id E) (checkPercentage b E)) ∧
    (¬ b.alertThreshold ≤ ((checkPercentage b E : Int) : ℚ) →
      checkBudgetAlert b E = .suppress) ∧
    checkSpent scenarioBudget.id [approvedExpense850] = 850 ∧
    checkPercentage scenarioBudget [approvedExpense850] = 85 ∧
    checkBudgetAlert scenarioBudget [approvedExpense850] = .fire scenarioBudget.owner 850 85 ∧
    checkPercentage scenarioBudget [approvedExpense750] = 75 ∧
    checkBudgetAlert scenarioBudget [approvedExpense750] = .suppress := by
  refine ⟨fun h => by simp [checkBudgetAlert, h], fun h => by simp [checkBudgetAlert, h],
    ?_, ?_, ?_, ?_, ?_⟩
  · simp [checkSpent, approvedExpense850, scenarioBudget]
  · simp [checkPercentage, checkSpent, approvedExpense850, scenarioBudget, jsRound]
    norm_num
  · simp [checkBudgetAlert, checkPercentage, checkSpent, approvedExpense850, scenarioBudget,
      jsRound]
    norm_num
  · simp [checkPercentage, checkSpent, approvedExpense750, approvedExpense850, scenarioBudget,
      jsRound]
    norm_num
  · simp [checkBudgetAlert, checkPercentage, checkSpent, approvedExpense750, approvedExpense850,
      scenarioBudget, jsRound]
    norm_num

/-- Witness for claim C3: on the scenario budget with the 850 expense the
threshold hypothesis is discharged concretely and the dispatcher fires. -/
theorem c3_alert_fire_iff_threshold_witness :
    checkBudgetAlert scenarioBudget [approvedExpense850] =
      .fire scenarioBudget.owner (checkSpent scenarioBudget.id [approvedExpense850])
        (checkPercentage scenarioBudget [approvedExpense850]) := by
  apply (c3_alert_fire_iff_threshold scenarioBudget [approvedExpense850]).1
  have h : checkPercentage scenarioBudget [approvedExpense850] = 85 := by
    simp [checkPercentage, checkSpent, approvedExpense850, scenarioBudget, jsRound]
    norm_num
  rw [h]
  norm_num [scenarioBudget]

/-- Counterexample for claim C4: on an already-approved expense, review
with decision rejected and an empty reason fails with MissingReason, not
NotPending, because the missing-reason check runs before the pending
check in reviewExpense. -/
theorem c4_counterexample_missing_reason_precedence :
    approvedExpense850.status ≠ ExpenseStatus.pending ∧
    reviewExpense ⟨"rejected", none⟩ approvedExpense850 9 42 = .error .missingReason ∧
    ¬ reviewExpense ⟨"rejected", none⟩ approvedExpense850 9 42 = .error .notPending := by
  refine ⟨by simp [approvedExpense850], rfl, ?_⟩
  intro h
  rw [show reviewExpense ⟨"rejected", none⟩ approvedExpense850 9 42 =
      .error .missingReason from rfl] at h
  simp at h

/-- Claim C4 (amended): review of a non-pending expense always fails and
leaves the expense unchanged (every failure returns before any field is
assigned); the error is NotPending whenever the decision is approved, or
rejected with a truthy reason, while rejected with an empty reason yields
MissingReason first; approving an expense a second time fails with
NotPending and the approvalDate written by the first approval persists. -/
theorem c4_nonpending_review_always_fails
    (e : Expense) (body : ReviewBody) (actorId : Nat) (now : Int)
    (hne : e.status ≠ ExpenseStatus.pending) :
    (∀ e2, reviewExpense body e actorId now ≠ .ok e2) ∧
    (body.status = "approved" → reviewExpense body e actorId now = .error .notPending) ∧
    (body.status = "rejected" → truthyStr body.rejectionReason = true →
      reviewExpense body e actorId now = .error .notPending) ∧
    (∀ (p e1 : Expense) (aId bId : Nat) (t t2 : Int),
      reviewExpense ⟨"approved", none⟩ p aId t = .ok e1 →
      e1.approvalDate = some t ∧
      reviewExpense ⟨"approved", none⟩ e1 bId t2 = .error .notPending) := by
  refine ⟨?_, ?_, ?_, ?_⟩
  · intro e2
    by_cases h1 : body.status ≠ "approved" ∧ body.status ≠ "rejected"
    · simp [reviewExpense, h1]
    · by_cases h2 : body.status = "rejected" ∧ truthyStr body.rejectionReason = false
      · simp [reviewExpense, h1, h2]
      · simp [reviewExpense, h1, h2, hne]
  · intro h
    simp [reviewExpense, h, hne]
  · intro h hr
    simp [reviewExpense, h, hr, hne]
  · intro p e1 aId bId t t2 h
    unfold reviewExpense at h
    simp [truthyStr] at h
    by_cases hp : p.status = ExpenseStatus.pending
    · rw [if_pos hp] at h
      simp [expensePreSave] at h
      constructor
      · rw [← h]
      · rw [← h]
        unfold reviewExpense
        simp [truthyStr]
    · rw [if_neg hp] at h
      simp at h

/-- Witness for claim C4: reviewing the already-approved 850 expense with
decision approved fails with NotPending. -/
theorem c4_nonpending_review_always_fails_witness :
    reviewExpense ⟨"approved", none⟩ approvedExpense850 9 42 = .error .notPending := by
  exact (c4_nonpending_review_always_fails approvedExpense850 ⟨"approved", none⟩ 9 42
    (by simp [approvedExpense850])).2.1 rfl

/-- Claim C5 (confirmed): review with decision rejected and a missing or
empty reason always fails with MissingReason, for every expense and actor;
with a non-empty reason it always succeeds through the review route
whenever the expense is pending and the actor role is manager or admin,
storing status rejected and the given rejectionReason. -/
theorem c5_reject_reason_required_and_sufficient (e : Expense) (actorId : Nat) (now : Int) :
    reviewExpense ⟨"rejected", none⟩ e actorId now = .error .missingReason ∧
    reviewExpense ⟨"rejected", some ""⟩ e actorId now = .error .missingReason ∧
    (∀ (actor : User) (reason : String), reason ≠ "" →
      e.status = ExpenseStatus.pending →
      (actor.role = Role.manager ∨ actor.role = Role.admin) →
      reviewRoute actor ⟨"rejected", some reason⟩ e now =
        .ok { e with
          status := ExpenseStatus.rejected
          approvedBy := some actor.id
          approvalDate := some now
          rejectionReason := some reason }) := by
  refine ⟨by simp [reviewExpense, truthyStr], by simp [reviewExpense, truthyStr], ?_⟩
  intro actor reason hr hp hrole
  have hgate : ¬ (actor.role ≠ Role.manager ∧ actor.role ≠ Role.admin) := by
    rcases hrole with h | h <;> simp [h]
  simp [reviewRoute, hgate, reviewExpense, truthyStr, hr, hp, expensePreSave]

/-- Witness for claim C5: a manager rejecting the pending 850 expense with
a non-empty reason succeeds, and the empty-reason call fails. -/
theorem c5_reject_reason_required_and_sufficient_witness :
    reviewExpense ⟨"rejected", none⟩ pendingExpense850 9 42 = .error .missingReason ∧
    reviewRoute ⟨9, Role.manager⟩ ⟨"rejected", some "over budget"⟩ pendingExpense850 42 =
      .ok { pendingExpense850 with
        status := ExpenseStatus.rejected
        approvedBy := some 9
        approvalDate := some 42
        rejectionReason := some "over budget" } := by
  refine ⟨(c5_reject_reason_required_and_sufficient pendingExpense850 9 42).1, ?_⟩
  exact (c5_reject_reason_required_and_sufficient pendingExpense850 9 42).2.2
    ⟨9, Role.manager⟩ "over budget" (by decide) (by rfl) (Or.inl rfl)

/-- Claim C6 (code bug): a rejected review does not leave approvalDate and
approvedBy untouched: reviewExpense assigns approvedBy = actor and
approvalDate = now unconditionally before saving, so rejecting the pending
850 expense (which had neither field set) stores both. -/
theorem c6_rejected_review_sets_approval_fields :
    pendingExpense850.status = ExpenseStatus.pending ∧
    pendingExpense850.approvalDate = none ∧
    pendingExpense850.approvedBy = none ∧
    reviewExpense ⟨"rejected", some "duplicate"⟩ pendingExpense850 9 42 =
      .ok { pendingExpense850 with
        status := ExpenseStatus.rejected
        approvedBy := some 9
        approvalDate := some 42
        rejectionReason := some "duplicate" } := by
  exact ⟨rfl, rfl, rfl, rfl⟩

/-- Counterexample for claim C7: approving the pending 850 expense (empty
audit log) succeeds, yet the stored expense still has an empty audit log:
no entry tagged approved was appended. -/
theorem c7_counterexample_no_audit_entry :
    reviewExpense ⟨"approved", none⟩ pendingExpense850 9 42 = .ok reviewedApproved850 ∧
    pendingExpense850.auditLog.length = 0 ∧
    reviewedApproved850.auditLog.length ≠ pendingExpense850.auditLog.length + 1 := by
  exact ⟨rfl, rfl, by decide⟩

/-- Claim C7 (amended): a successful review appends nothing to the audit
log: the stored expense carries exactly the audit log the expense had
before review (reviewExpense never invokes addAuditLog). -/
theorem c7_review_leaves_audit_log_unchanged
    (body : ReviewBody) (e : Expense) (actorId : Nat) (now : Int) (e2 : Expense)
    (h : reviewExpense body e actorId now = .ok e2) :
    e2.auditLog = e.auditLog := by
  unfold reviewExpense at h
  split at h
  · simp at h
  · split at h
    · simp at h
    · split at h
      · simp at h
      · simp only [Except.ok.injEq] at h
        subst h
        unfold expensePreSave
        split
        · split <;> rfl
        · split <;> rfl

/-- Witness for claim C7: the concrete approval of the pending 850 expense
keeps its empty audit log. -/
theorem c7_review_leaves_audit_log_unchanged_witness :
    reviewedApproved850.auditLog = pendingExpense850.auditLog := by
  exact c7_review_leaves_audit_log_unchanged ⟨"approved", none⟩ pendingExpense850 9 42
    reviewedApproved850 rfl

/-- Claim C8 (confirmed): the budget gate of createExpense fails with
BudgetInactive exactly when the budget status is neither active nor
approved; on an active or approved budget it fails with OutOfPeriod
exactly when the expense date lies outside [startDate, endDate]; and it
lets the expense through exactly when the budget is active or approved
and the date lies inside the period. -/
theorem c8_create_expense_budget_gate (b : Budget) (d : Int) :
    (createExpenseCheck b d = .error .budgetInactive ↔
      (b.status ≠ BudgetStatus.active ∧ b.status ≠ BudgetStatus.approved)) ∧
    ((b.status = BudgetStatus.active ∨ b.status = BudgetStatus.approved) →
      (createExpenseCheck b d = .error .outOfPeriod ↔ (d < b.startDate ∨ b.endDate < d))) ∧
    (createExpenseCheck b d = .ok () ↔
      ((b.status = BudgetStatus.active ∨ b.status = BudgetStatus.approved) ∧
        b.startDate ≤ d ∧ d ≤ b.endDate)) := by
  by_cases h1 : b.status ≠ BudgetStatus.active ∧ b.status ≠ BudgetStatus.approved
  · refine ⟨by simp [createExpenseCheck, h1], ?_, ?_⟩
    · intro h2
      exfalso
      rcases h2 with h | h <;> simp [h] at h1
    · simp [createExpenseCheck, h1]
      try tauto
  · by_cases h2 : d < b.startDate ∨ b.endDate < d
    · refine ⟨by simp [createExpenseCheck, h1, h2], by simp [createExpenseCheck, h1, h2], ?_⟩
      simp [createExpenseCheck, h1, h2]
      try omega
    · refine ⟨by simp [createExpenseCheck, h1, h2], by simp [createExpenseCheck, h1, h2], ?_⟩
      simp [createExpenseCheck, h1, h2]
      try constructor
      try tauto
      try omega

/-- Witness for claim C8: on the active scenario budget an in-period date
passes the gate, discharging the iff with concrete facts. -/
theorem c8_create_expense_budget_gate_witness :
    createExpenseCheck scenarioBudget 5 = .ok () := by
  exact (c8_create_expense_budget_gate scenarioBudget 5).2.2.mpr
    ⟨Or.inl rfl, by decide, by decide⟩

/-- Claim C9 (confirmed): when any expense (in any status) references the
budget, deleteBudget never succeeds for any actor and the budget store is
left unchanged; a successful deletion implies no expense references the
budget. -/
theorem c9_delete_budget_blocked_by_linked_expenses
    (actor : User) (b : Budget) (E : List Expense) (store : List Budget) :
    ((∃ e ∈ E, e.budget = some b.id) →
      deleteBudget actor b E ≠ .ok () ∧ deleteBudgetFromStore actor b E store = store) ∧
    (deleteBudget actor b E = .ok () → ∀ e ∈ E, e.budget ≠ some b.id) := by
  have hcount : 0 < linkedExpenseCount b.id E ↔ ∃ e ∈ E, e.budget = some b.id := by
    unfold linkedExpenseCount
    rw [List.length_pos]
    constructor
    · intro h
      rcases List.exists_mem_of_ne_nil _ h with ⟨e, he⟩
      rcases (List.mem_filter).mp he with ⟨hmem, hp⟩
      exact ⟨e, hmem, by simpa using hp⟩
    · rintro ⟨e, hmem, hp⟩
      intro hnil
      have hin : e ∈ List.filter (fun e => e.budget == some b.id) E :=
        List.mem_filter.mpr ⟨hmem, by simpa using hp⟩
      simp [hnil] at hin
  constructor
  · intro hex
    have hc : 0 < linkedExpenseCount b.id E := hcount.mpr hex
    by_cases hauth : actor.role ≠ Role.admin ∧ b.owner ≠ actor.id
    · exact ⟨by simp [deleteBudget, hauth], by simp [deleteBudgetFromStore, deleteBudget, hauth]⟩
    · exact ⟨by simp [deleteBudget, hauth, hc],
        by simp [deleteBudgetFromStore, deleteBudget, hauth, hc]⟩
  · intro hok
    by_contra hx
    push_neg at hx
    rcases hx with ⟨e, hmem, hp⟩
    have hc : 0 < linkedExpenseCount b.id E := hcount.mpr ⟨e, hmem, hp⟩
    by_cases hauth : actor.role ≠ Role.admin ∧ b.owner ≠ actor.id
    · simp [deleteBudget, hauth] at hok
    · simp [deleteBudget, hauth, hc] at hok

/-- Witness for claim C9: even the admin owner cannot delete the scenario
budget while the approved 850 expense references it, and the store keeps
the budget. -/
theorem c9_delete_budget_blocked_by_linked_expenses_witness :
    deleteBudget ⟨7, Role.admin⟩ scenarioBudget [approvedExpense850] ≠ .ok () ∧
    deleteBudgetFromStore ⟨7, Role.admin⟩ scenarioBudget [approvedExpense850] [scenarioBudget] =
      [scenarioBudget] := by
  exact (c9_delete_budget_blocked_by_linked_expenses ⟨7, Role.admin⟩ scenarioBudget
    [approvedExpense850] [scenarioBudget]).1 ⟨approvedExpense850, by simp, rfl⟩

/-- Claim C10 (confirmed): the generic update route lets a user-role
submitter move their own pending expense straight to approved: the status
field from the body is applied with no manager or admin check, the update
succeeds, the controller then runs the budget-alert check, and the now
approved expense is counted by both spent-amount computations. -/
theorem c10_user_can_self_approve_via_update
    (actor : User) (e : Expense) (bid : Nat) (E : List Expense)
    (hrole : actor.role = Role.user) (hown : e.submittedBy = actor.id)
    (hpend : e.status = ExpenseStatus.pending) (hbud : e.budget = some bid) :
    updateExpense actor e ⟨some ExpenseStatus.approved, none⟩ =
      .ok ⟨{ e with status := ExpenseStatus.approved }, true⟩ ∧
    checkSpent bid ({ e with status := ExpenseStatus.approved } :: E) =
      e.amount + checkSpent bid E ∧
    countsTowardSpent ExpenseStatus.approved = true := by
  refine ⟨?_, ?_, rfl⟩
  · simp [updateExpense, hrole, hown, hpend, applyUpdate, hbud]
  · simp [checkSpent, hbud]

/-- Witness for claim C10: submitter 3 with role user self-approves their
own pending 850 expense; the alert check runs and the expense counts. -/
theorem c10_user_can_self_approve_via_update_witness :
    updateExpense ⟨3, Role.user⟩ pendingExpense850 ⟨some ExpenseStatus.approved, none⟩ =
      .ok ⟨{ pendingExpense850 with status := ExpenseStatus.approved }, true⟩ ∧
    checkSpent 1 ({ pendingExpense850 with status := ExpenseStatus.approved } :: []) =
      pendingExpense850.amount + checkSpent 1 [] ∧
    countsTowardSpent ExpenseStatus.approved = true := by
  exact c10_user_can_self_approve_via_update ⟨3, Role.user⟩ pendingExpense850 1 []
    rfl rfl rfl rfl

end ERP
